/-
Verification of the anymind-qd backend service layer.

The Python services (src/app/backend/app/services/*.py, src/app/backend/app/core/crypto.py)
are shallowly embedded: the Qdrant store is a record of per-collection point lists,
payload dictionaries become structures of `Option`-typed fields (absent key = `none`),
Python `a or b` / truthiness is modelled explicitly (empty string and zero are falsy),
ISO-8601 timestamps become naturals (lexicographic order on the fixed-format strings
coincides with chronological order), float arithmetic becomes exact rationals,
uuid generation becomes a fresh-id counter, and raised exceptions become `Except.error`.
-/
import Mathlib

namespace AnymindQD

/-! ## Python truthiness helpers

`a or b` in Python returns `b` when `a` is falsy (`None`, `""`, `0`, `0.0`). -/

/-- `a or b` on optional strings (empty string is falsy). -/
def pyOrS (a b : Option String) : Option String :=
  match a with
  | some s => if s = "" then b else some s
  | none => b

/-- Python truthiness of an optional string. -/
def truthyS (a : Option String) : Bool :=
  match a with
  | some s => !(s == "")
  | none => false

/-- `a or b` on optional record identifiers.  In the source, ids are uuid-style
non-empty strings, hence always truthy when present. -/
def pyOrId (a b : Option Nat) : Option Nat :=
  match a with
  | some i => some i
  | none => b

/-- `a or b` on optional numbers (zero is falsy). -/
def pyOrQn (a b : Option ℚ) : Option ℚ :=
  match a with
  | some q => if q = 0 then b else some q
  | none => b

/-- `x or d` for a numeric payload field with a numeric default (zero is falsy). -/
def pyNum (a : Option ℚ) (d : ℚ) : ℚ :=
  match a with
  | some q => if q = 0 then d else q
  | none => d

/-- Python truthiness of an optional number. -/
def truthyQ (a : Option ℚ) : Bool :=
  match a with
  | some q => !(q == 0)
  | none => false

/-- `x or d` on optional integers (zero is falsy). -/
def pyOrZ (a : Option ℤ) (d : ℤ) : ℤ :=
  match a with
  | some z => if z = 0 then d else z
  | none => d

/-- Python `int(q)` on a float/rational: truncation toward zero. -/
def pyInt (q : ℚ) : ℤ :=
  Int.tdiv q.num q.den

/-! ## The Qdrant store model

A point is an id plus a payload plus optional named vectors (we keep a single
optional vector slot; the services use at most one named vector per collection). -/

/-- A stored point: id, payload, optional vector. -/
structure Pt (P : Type) where
  pid : Nat
  payload : P
  vec : Option (List ℚ)
deriving DecidableEq

/-- `client.retrieve(ids=[id])`: fetch a point by id. -/
def getById {P : Type} (recs : List (Pt P)) (pid : Nat) : Option (Pt P) :=
  recs.find? (fun r => r.pid == pid)

/-- `client.upsert`: create-or-replace a point (payload and vector). -/
def upsertPt {P : Type} (recs : List (Pt P)) (pid : Nat) (p : P) (v : Option (List ℚ)) :
    List (Pt P) :=
  if recs.any (fun r => r.pid == pid) then
    recs.map (fun r => if r.pid == pid then ⟨pid, p, v⟩ else r)
  else
    recs ++ [⟨pid, p, v⟩]

/-- `client.set_payload`: replace the payload of an existing point, vectors untouched. -/
def setPayloadPt {P : Type} (recs : List (Pt P)) (pid : Nat) (p : P) : List (Pt P) :=
  recs.map (fun r => if r.pid == pid then ⟨r.pid, p, r.vec⟩ else r)

/-- `client.delete` with a point-id selector. -/
def deleteById {P : Type} (recs : List (Pt P)) (pid : Nat) : List (Pt P) :=
  recs.filter (fun r => !(r.pid == pid))

/-- `client.delete` with a filter selector: drop every matching point. -/
def deleteByFilter {P : Type} (recs : List (Pt P)) (f : P → Bool) : List (Pt P) :=
  recs.filter (fun r => !(f r.payload))

/-! ## Scroll pagination

`client.scroll(filter, limit, offset)` returns one page of the filtered point
sequence and a cursor for the next page (`none` when exhausted).  The cursor is
modelled as an index into the filtered sequence. -/

/-- One `scroll` call over the already-filtered point sequence. -/
def scrollOnce {α : Type} (recs : List α) (lim off : Nat) : List α × Option Nat :=
  ((recs.drop off).take lim, if off + lim < recs.length then some (off + lim) else none)

/-- The collect-everything pagination loop (page size 200), fuel-indexed.
Mirrors `while True: points, next = scroll(...); out.extend(points); if not next: break`. -/
def scrollAllGo {α : Type} (recs : List α) : Nat → Nat → List α → List α
  | 0, _, acc => acc
  | fuel + 1, off, acc =>
    let step := scrollOnce recs 200 off
    let acc2 := acc ++ step.1
    match step.2 with
    | none => acc2
    | some off2 => scrollAllGo recs fuel off2 acc2

/-- Collect the entire filtered result set (the unbounded pagination loop). -/
def scrollAll {α : Type} (recs : List α) : List α :=
  scrollAllGo recs (recs.length + 1) 0 []

/-- The limit-bounded pagination loop of `MessageService.list_messages`, fuel-indexed.
Each page requests `min(200, limit - len(out))`; the loop breaks when the cursor is
exhausted or `limit` records have been collected. -/
def scrollLimitedGo {α : Type} (recs : List α) (limit : Nat) : Nat → Nat → List α → List α
  | 0, _, acc => acc
  | fuel + 1, off, acc =>
    let step := scrollOnce recs (min 200 (limit - acc.length)) off
    let acc2 := acc ++ step.1
    match step.2 with
    | none => acc2
    | some off2 => if limit ≤ acc2.length then acc2 else scrollLimitedGo recs limit fuel off2 acc2

/-- Collect at most `limit` records of the filtered result set. -/
def scrollLimited {α : Type} (recs : List α) (limit : Nat) : List α :=
  scrollLimitedGo recs limit (limit + 1) 0 []

/-! ## Secret cipher (`app/core/crypto.py`)

The Fernet primitive itself is an external, vetted collaborator (spec §1 keeps
encryption out of scope); it is abstracted as a pair of functions, where
`dec t = none` models an `InvalidToken` failure on a tampered/unknown token.
The wrapper logic of `encrypt_secret` / `decrypt_secret` is embedded exactly. -/

/-- An abstract Fernet-like cipher.  `dec t = none` models `InvalidToken`. -/
structure Cipher where
  enc : String → String
  dec : String → Option String

/-- `encrypt_secret`: pass `None` and `""` through, otherwise encrypt. -/
def encrypt_secret (c : Cipher) : Option String → Option String
  | none => none
  | some s => if s = "" then some "" else some (c.enc s)

/-- `decrypt_secret`: pass `None` and `""` through, otherwise decrypt;
an `InvalidToken` becomes a raised `RuntimeError` (modelled as `Except.error`). -/
def decrypt_secret (c : Cipher) : Option String → Except String (Option String)
  | none => .ok none
  | some s =>
    if s = "" then .ok (some "") else
      match c.dec s with
      | some p => .ok (some p)
      | none => .error "Failed to decrypt secret (invalid token or wrong key)"

/-! ## Payload structures

One structure per collection, mirroring exactly the dictionary keys the service
code reads or writes.  A field value `none` models an absent key (or a stored
`None` value, which the code treats identically through `dict.get`).
Timestamps are naturals: the stored ISO-8601 UTC strings compare
lexicographically in chronological order, so `Nat` order is faithful.
Record ids are naturals standing for the uuid-style non-empty id strings. -/

/-- Payload of a point in the `agents` collection (`AgentService.create_agent`). -/
structure AgentPayload where
  type : Option String := none
  created_at : Option Nat := none
  updated_at : Option Nat := none
  id : Option Nat := none
  agent_id : Option Nat := none
  wallet : Option String := none
  name : Option String := none
  description : Option String := none
  model : Option String := none
  api_key : Option String := none
  is_public : Option Bool := none
  display_name : Option String := none
  platform : Option String := none
  api_key_encrypted : Option String := none
  user_wallet : Option String := none
  api_key_configured : Option Bool := none
deriving DecidableEq

/-- Payload of a point in the `chats` collection (`ChatService.create_chat`). -/
structure ChatPayload where
  type : Option String := none
  created_at : Option Nat := none
  updated_at : Option Nat := none
  id : Option Nat := none
  chat_id : Option Nat := none
  agent_id : Option Nat := none
  wallet : Option String := none
  title : Option String := none
  name : Option String := none
  memory_size : Option String := none
  timestamp : Option Nat := none
  message_count : Option ℤ := none
  last_message : Option String := none
  capsule_id : Option Nat := none
  user_wallet : Option String := none
  web_search_enabled : Option Bool := none
deriving DecidableEq

/-- Payload of a point in the `messages` collection (`MessageService.add_message`). -/
structure MessagePayload where
  type : Option String := none
  created_at : Option Nat := none
  updated_at : Option Nat := none
  id : Option Nat := none
  message_id : Option Nat := none
  chat_id : Option Nat := none
  agent_id : Option Nat := none
  wallet : Option String := none
  role : Option String := none
  content : Option String := none
  timestamp : Option Nat := none
deriving DecidableEq

/-- The capsule `metadata` sub-dictionary; the services only ever read its
`agent_id` entry. -/
structure CapsuleMeta where
  agent_id : Option Nat := none
deriving DecidableEq

/-- Payload of a point in the `capsules` collection (`CapsuleService.create_capsule`). -/
structure CapsulePayload where
  type : Option String := none
  created_at : Option Nat := none
  updated_at : Option Nat := none
  id : Option Nat := none
  capsule_id : Option Nat := none
  agent_id : Option Nat := none
  owner_wallet : Option String := none
  price : Option ℚ := none
  is_listed : Option Bool := none
  name : Option String := none
  description : Option String := none
  category : Option String := none
  creator_wallet : Option String := none
  price_per_query : Option ℚ := none
  stake_amount : Option ℚ := none
  reputation : Option ℚ := none
  query_count : Option ℚ := none
  rating : Option ℚ := none
  metadata : Option CapsuleMeta := none
deriving DecidableEq

/-- Payload of a point in the `staking` collection (`WalletService.create_staking`). -/
structure StakingPayload where
  type : Option String := none
  created_at : Option Nat := none
  updated_at : Option Nat := none
  id : Option Nat := none
  capsule_id : Option Nat := none
  staker_wallet : Option String := none
  amount : Option ℚ := none
  timestamp : Option Nat := none
  wallet_address : Option String := none
  stake_amount : Option ℚ := none
  staked_at : Option Nat := none
deriving DecidableEq

/-- Payload of a point in the `earnings` collection (`CapsuleService._record_earnings`). -/
structure EarningPayload where
  type : Option String := none
  created_at : Option Nat := none
  updated_at : Option Nat := none
  id : Option Nat := none
  wallet : Option String := none
  capsule_id : Option Nat := none
  amount : Option ℚ := none
  source : Option String := none
  timestamp : Option Nat := none
  wallet_address : Option String := none
deriving DecidableEq

/-- Payload of a point in the `mem0_pointers` collection. -/
structure MemPtrPayload where
  type : Option String := none
  created_at : Option Nat := none
  updated_at : Option Nat := none
  agent_id : Option Nat := none
  chat_id : Option Nat := none
  memory_id : Option Nat := none
deriving DecidableEq

/-- The empty payload dictionary; `if not rec.payload` in the source checks for it. -/
def emptyAgentP : AgentPayload := {}

def emptyChatP : ChatPayload := {}

def emptyCapsuleP : CapsulePayload := {}

/-! ## Public entity shapes (`app/models/schemas.py` response models) -/

/-- The public `Agent` response shape. -/
structure Agent where
  id : Nat
  name : String
  display_name : String
  platform : String
  api_key_configured : Bool
  model : Option String
  user_wallet : Option String
  api_key : Option String
deriving DecidableEq

/-- The public `Message` response shape. -/
structure Message where
  id : Nat
  role : String
  content : String
  timestamp : Option Nat
deriving DecidableEq

/-- The public `Chat` response shape. -/
structure Chat where
  id : Nat
  name : String
  memory_size : String
  last_message : Option String
  timestamp : Nat
  message_count : ℤ
  messages : List Message
  agent_id : Option Nat
  capsule_id : Option Nat
  user_wallet : Option String
  web_search_enabled : Bool
deriving DecidableEq

/-- The public `Capsule` response shape. -/
structure Capsule where
  id : Option Nat
  name : String
  description : String
  category : String
  creator_wallet : String
  price_per_query : ℚ
  stake_amount : ℚ
  reputation : ℚ
  query_count : ℤ
  rating : ℚ
  created_at : Nat
  updated_at : Nat
  metadata : Option CapsuleMeta
deriving DecidableEq

/-- The public `StakingInfo` response shape. -/
structure StakingInfo where
  capsule_id : Nat
  wallet_address : String
  stake_amount : ℚ
  staked_at : Nat
deriving DecidableEq

/-! ## Request shapes (`app/models/schemas.py` input models, reconstructed from
their use in the services) -/

structure AgentCreate where
  name : String
  display_name : String
  platform : String
  model : Option String
  api_key : Option String
deriving DecidableEq

structure AgentUpdate where
  display_name : Option String := none
  model : Option String := none
deriving DecidableEq

structure ChatCreate where
  name : String
  memory_size : String
  capsule_id : Option Nat := none
  web_search_enabled : Bool := false
deriving DecidableEq

structure MessageCreate where
  role : String
  content : String
deriving DecidableEq

structure CapsuleCreate where
  name : String
  description : String
  category : String
  price_per_query : ℚ
  metadata : Option CapsuleMeta := none
deriving DecidableEq

structure StakingCreate where
  capsule_id : Nat
  stake_amount : ℚ
deriving DecidableEq

structure MarketplaceFilters where
  category : Option String := none
  min_reputation : Option ℚ := none
  max_price : Option ℚ := none
  sort_by : Option String := none
deriving DecidableEq

/-! ## The store state

One point list per collection, plus a clock (monotone wall time; every write
stamps the current value and advances it) and a fresh-id counter (uuid source). -/

structure St where
  agents : List (Pt AgentPayload) := []
  chats : List (Pt ChatPayload) := []
  messages : List (Pt MessagePayload) := []
  capsules : List (Pt CapsulePayload) := []
  staking : List (Pt StakingPayload) := []
  earnings : List (Pt EarningPayload) := []
  memPointers : List (Pt MemPtrPayload) := []
  clock : Nat := 0
  nextId : Nat := 1
deriving DecidableEq

/-- `a or b` on optional timestamps.  Stored ISO timestamp strings are non-empty,
hence always truthy when the key is present. -/
def pyOrN (a b : Option Nat) : Option Nat :=
  match a with
  | some n => some n
  | none => b

/-- `x or d` on an optional string with a string default (empty string falsy),
then `str(...)`. -/
def pyStr (a : Option String) (d : String) : String :=
  match a with
  | some s => if s = "" then d else s
  | none => d

/-! ## MessageService (`app/services/message_service.py`) -/

/-- The filter built in `list_messages` / `delete_messages_for_chat`:
`chat_id` must match; `wallet` must match when a truthy wallet is given. -/
def msgFilter (chat_id : Nat) (wallet : Option String) (p : MessagePayload) : Bool :=
  p.chat_id == some chat_id && (!truthyS wallet || p.wallet == wallet)

/-- The payload dictionary written by `MessageService.add_message`. -/
def addMsgPayload (chat_id agent_id : Nat) (wallet : String) (message : MessageCreate)
    (now message_id : Nat) : MessagePayload :=
  { type := some "message", created_at := some now, updated_at := some now,
    id := some message_id, message_id := some message_id,
    chat_id := some chat_id, agent_id := some agent_id, wallet := some wallet,
    role := some message.role, content := some message.content, timestamp := some now }

/-- The state after `MessageService.add_message` stores its point. -/
def addMsgSt (embed : String → List ℚ) (st : St) (chat_id agent_id : Nat)
    (wallet : String) (message : MessageCreate) : St :=
  let payload := addMsgPayload chat_id agent_id wallet message st.clock st.nextId
  let vec := some (embed message.content)
  { st with messages := upsertPt st.messages st.nextId payload vec,
            clock := st.clock + 1, nextId := st.nextId + 1 }

/-- `MessageService.add_message`: embed the content, store payload + vector,
return the public message.  `embed` is the external embedding provider. -/
def add_message_svc (embed : String → List ℚ) (st : St) (chat_id agent_id : Nat)
    (wallet : String) (message : MessageCreate) : St × Message :=
  (addMsgSt embed st chat_id agent_id wallet message,
   ⟨st.nextId, message.role, message.content, some st.clock⟩)

/-- The `_ts` sort key of `list_messages`: `created_at or timestamp or ""`,
with the empty string sorting before every real timestamp. -/
def msgSortKey (r : Pt MessagePayload) : Option Nat :=
  pyOrN r.payload.created_at r.payload.timestamp

/-- `≤` on optional sort keys (`none` is the empty string, smallest). -/
def optNatLE (a b : Option Nat) : Bool :=
  match a, b with
  | none, _ => true
  | some _, none => false
  | some x, some y => decide (x ≤ y)

/-- The set of valid `MessageRole` values. -/
def validRoles : List String := ["user", "assistant", "system"]

/-- Map a stored point to the public `Message` shape (`list_messages` loop body). -/
def toMessage (r : Pt MessagePayload) : Message :=
  let payload := r.payload
  let ts := pyOrN payload.timestamp payload.created_at
  let role_val := pyStr payload.role "user"
  let role := if validRoles.contains role_val then role_val else "user"
  ⟨(pyOrId payload.id none).getD r.pid, role, pyStr payload.content "", ts⟩

/-- `MessageService.list_messages`: paginate until `limit` reached or store
exhausted, sort chronologically (a stable sort, like Python's `list.sort`),
map to the public shape. -/
def list_messages (st : St) (chat_id : Nat) (wallet : Option String)
    (limit : Nat := 1000) : List Message :=
  let out := scrollLimited (st.messages.filter (fun r => msgFilter chat_id wallet r.payload)) limit
  let sorted := List.insertionSort
    (fun a b => optNatLE (msgSortKey a) (msgSortKey b) = true) out
  sorted.map toMessage

/-- `MessageService.delete_messages_for_chat`: bulk filter-delete. -/
def delete_messages_for_chat (st : St) (chat_id : Nat) (wallet : Option String) : St :=
  { st with messages := deleteByFilter st.messages (msgFilter chat_id wallet) }

/-! ## ChatService (`app/services/chat_service.py`) -/

/-- `ChatService.create_chat`. -/
def create_chat (st : St) (agent_id : Nat) (chat : ChatCreate) (wallet : String) :
    St × Chat :=
  let now := st.clock
  let chat_id := st.nextId
  let payload : ChatPayload :=
    { type := some "chat", created_at := some now, updated_at := some now,
      id := some chat_id, chat_id := some chat_id, agent_id := some agent_id,
      wallet := some wallet, title := some chat.name, name := some chat.name,
      memory_size := some chat.memory_size, timestamp := some now,
      message_count := some 0, last_message := none,
      capsule_id := chat.capsule_id, user_wallet := some wallet,
      web_search_enabled := some chat.web_search_enabled }
  ({ st with chats := upsertPt st.chats chat_id payload none,
             clock := st.clock + 1, nextId := st.nextId + 1 },
   ⟨chat_id, chat.name, chat.memory_size, none, now, 0, [], some agent_id,
    chat.capsule_id, some wallet, chat.web_search_enabled⟩)

/-- The set of valid `MemorySize` values. -/
def validMemorySizes : List String := ["Small", "Medium", "Large"]

/-- `ChatService.get_chat`: ownership-checked fetch; loads the full message list. -/
def get_chat (st : St) (chat_id : Nat) (wallet : Option String) : Option Chat :=
  match getById st.chats chat_id with
  | none => none
  | some rec =>
    if rec.payload = emptyChatP then none else
    let payload := rec.payload
    if truthyS wallet && !(payload.wallet == wallet) then none else
    let ts := (pyOrN payload.timestamp payload.created_at).getD st.clock
    let mem_raw := pyStr payload.memory_size "Small"
    let mem_size := if validMemorySizes.contains mem_raw then mem_raw else "Small"
    let msgs := list_messages st chat_id (pyOrS payload.wallet wallet)
    some ⟨chat_id, pyStr (pyOrS payload.name payload.title) "", mem_size,
          payload.last_message, ts, pyOrZ payload.message_count (msgs.length : ℤ),
          msgs, payload.agent_id, payload.capsule_id,
          pyOrS payload.wallet payload.user_wallet,
          payload.web_search_enabled.getD false⟩

/-- `ChatService.update_chat_counters`: silent no-op when the chat is missing or
not owned; otherwise store the new counter, snippet and `updated_at`. -/
def update_chat_counters (st : St) (chat_id : Nat) (wallet : Option String)
    (message_count : ℤ) (last_message : String) : St :=
  match getById st.chats chat_id with
  | none => st
  | some rec =>
    if rec.payload = emptyChatP then st else
    let payload := rec.payload
    if truthyS wallet && !(payload.wallet == wallet) then st else
    let payload2 := { payload with message_count := some message_count,
                                   last_message := some last_message,
                                   updated_at := some st.clock }
    { st with chats := upsertPt st.chats chat_id payload2 none, clock := st.clock + 1 }

/-- The observable sequence of store mutations performed by `delete_chat`
(children strictly before the parent). -/
inductive DeleteOp where
  | memCleanup
  | deleteMsgs
  | deleteChatRec
deriving DecidableEq

/-- The filter used by `MemoryService.delete_chat_memories` on the
`mem0_pointers` collection.  The service passes `chat.agent_id or ""`; when the
chat has no agent id the match value is the empty string, which no stored
pointer (uuid-style id) can equal. -/
def memPtrFilter (agent_id : Option Nat) (chat_id : Nat) (p : MemPtrPayload) : Bool :=
  (match agent_id with
   | some a => p.agent_id == some a
   | none => false) && p.chat_id == some chat_id

/-- `ChatService.delete_chat`.  `memFails` says whether the best-effort
mem0-pointer cleanup raises (the exception is swallowed either way).  Returns
the new state and the ordered trace of mutations performed. -/
def delete_chat (st : St) (memFails : Bool) (chat_id : Nat) (wallet : Option String) :
    St × List DeleteOp :=
  match get_chat st chat_id wallet with
  | none => (st, [])
  | some chat =>
    let st1 := if memFails then st else
      { st with memPointers := deleteByFilter st.memPointers (memPtrFilter chat.agent_id chat_id) }
    let st2 := delete_messages_for_chat st1 chat_id wallet
    let st3 := { st2 with chats := deleteById st2.chats chat_id }
    (st3, [.memCleanup, .deleteMsgs, .deleteChatRec])

/-! ## AgentService (`app/services/agent_service.py`) -/

/-- The scoped filter of `get_user_agents`. -/
def agentListFilter (wallet : Option String) (p : AgentPayload) : Bool :=
  match wallet with
  | some w => if w = "" then true else p.wallet == some w
  | none => true

/-- Map a stored point to the public `Agent` shape in `get_user_agents`
(`api_key=None  # never expose`). -/
def toListedAgent (r : Pt AgentPayload) : Agent :=
  let payload := r.payload
  { id := (pyOrId payload.agent_id payload.id).getD r.pid,
    name := pyStr payload.name "",
    display_name := pyStr (pyOrS payload.display_name (pyOrS payload.description payload.name)) "",
    platform := pyStr payload.platform "openrouter",
    api_key_configured := truthyS (pyOrS payload.api_key_encrypted payload.api_key),
    model := payload.model,
    user_wallet := pyOrS payload.wallet payload.user_wallet,
    api_key := none }

/-- `AgentService.get_user_agents`: scoped scroll, key never exposed. -/
def get_user_agents (st : St) (wallet : Option String) : List Agent :=
  let out := scrollAll (st.agents.filter (fun r => agentListFilter wallet r.payload))
  out.map toListedAgent

/-- `AgentService.get_agent`: ownership enforced only when a wallet is supplied;
decrypts and exposes the API key (a decryption failure propagates). -/
def get_agent (c : Cipher) (st : St) (agent_id : Nat) (wallet : Option String) :
    Except String (Option Agent) := do
  match getById st.agents agent_id with
  | none => return none
  | some rec =>
    if rec.payload = emptyAgentP then return none else
    let payload := rec.payload
    if truthyS wallet && !(payload.wallet == wallet) then return none else
    let encrypted := pyOrS payload.api_key_encrypted payload.api_key
    let api_key ← if truthyS encrypted then decrypt_secret c encrypted else pure none
    return some
      { id := (pyOrId payload.agent_id (some agent_id)).getD agent_id,
        name := pyStr payload.name "",
        display_name := pyStr (pyOrS payload.display_name (pyOrS payload.description payload.name)) "",
        platform := pyStr payload.platform "openrouter",
        api_key_configured := truthyS payload.api_key_encrypted,
        model := payload.model,
        user_wallet := pyOrS payload.wallet payload.user_wallet,
        api_key := api_key }

/-- `AgentService.create_agent`: encrypt the supplied key before storage, never
return it (`api_key=None` in the response). -/
def create_agent (c : Cipher) (st : St) (agent_data : AgentCreate) (wallet : String) :
    St × Agent :=
  let now := st.clock
  let agent_id := st.nextId
  let encrypted := encrypt_secret c agent_data.api_key
  let payload : AgentPayload :=
    { type := some "agent", created_at := some now, updated_at := some now,
      id := some agent_id, agent_id := some agent_id, wallet := some wallet,
      name := some agent_data.name, description := some agent_data.display_name,
      model := agent_data.model, api_key := encrypted, is_public := some false,
      display_name := some agent_data.display_name, platform := some agent_data.platform,
      api_key_encrypted := encrypted, user_wallet := some wallet,
      api_key_configured := some true }
  ({ st with agents := upsertPt st.agents agent_id payload none,
             clock := st.clock + 1, nextId := st.nextId + 1 },
   ⟨agent_id, agent_data.name, agent_data.display_name, agent_data.platform, true,
    agent_data.model, some wallet, none⟩)

/-- `AgentService.update_agent`: NotFound/unauthorized raise; only non-null patch
fields are applied; the key is never returned. -/
def update_agent (st : St) (agent_id : Nat) (agent_update : AgentUpdate)
    (wallet : String) : Except String (St × Agent) :=
  match getById st.agents agent_id with
  | none => .error "Agent not found"
  | some rec =>
    if rec.payload = emptyAgentP then .error "Agent not found" else
    let payload := rec.payload
    if !(payload.wallet == some wallet) then .error "Agent not found or unauthorized" else
    let p1 := match agent_update.display_name with
      | some d => { payload with display_name := some d, description := some d }
      | none => payload
    let p2 := match agent_update.model with
      | some m => { p1 with model := some m }
      | none => p1
    let p3 := { p2 with updated_at := some st.clock }
    .ok ({ st with agents := upsertPt st.agents agent_id p3 none, clock := st.clock + 1 },
         { id := agent_id,
           name := pyStr p3.name "",
           display_name := pyStr (pyOrS p3.display_name (pyOrS p3.description p3.name)) "",
           platform := pyStr p3.platform "openrouter",
           api_key_configured := truthyS p3.api_key_encrypted,
           model := p3.model,
           user_wallet := p3.wallet,
           api_key := none })

/-- `AgentService.add_message`: look the chat up (ownership-checked), append the
message, then refresh the chat counters from a `limit=5000` message listing. -/
def agent_add_message (embed : String → List ℚ) (st : St) (chat_id : Nat)
    (message : MessageCreate) (wallet : String) : Except String (St × Message) :=
  match get_chat st chat_id (some wallet) with
  | none => .error "Chat not found"
  | some chat =>
    match chat.agent_id with
    | none => .error "Chat not found"
    | some aid =>
      let res := add_message_svc embed st chat_id aid wallet message
      let msgs := list_messages res.1 chat_id (some wallet) 5000
      let st2 := update_chat_counters res.1 chat_id (some wallet) (msgs.length : ℤ)
        (message.content.take 100)
      .ok (st2, res.2)

/-- `N` sequential `AgentService.add_message` calls on one chat (the test
harness of spec §8); a failing call leaves the state unchanged. -/
def iterAddMessage (embed : String → List ℚ) (msgs : Nat → MessageCreate)
    (chat_id : Nat) (wallet : String) : Nat → St → St
  | 0, st => st
  | n + 1, st =>
    let st1 := iterAddMessage embed msgs chat_id wallet n st
    match agent_add_message embed st1 chat_id (msgs n) wallet with
    | .ok res => res.1
    | .error _ => st1

/-- The state invariant maintained by sequential `add_message` calls on a chat
owned by `w`: the chat record exists, is owned by `w`, references an agent, its
stored `message_count` is `min 5000 k`; exactly `k` stored messages match the
chat/wallet filter, each carrying equal `created_at` and `timestamp`; and every
stored message id is below the fresh-id counter. -/
def c4Inv (chat_id : Nat) (w : String) (k : Nat) (st : St) : Prop :=
  (∃ rec : Pt ChatPayload, getById st.chats chat_id = some rec ∧
    rec.payload.wallet = some w ∧ rec.payload.agent_id.isSome = true ∧
    rec.payload ≠ emptyChatP ∧
    rec.payload.message_count = some ((min 5000 k : ℕ) : ℤ)) ∧
  (st.messages.filter (fun r => msgFilter chat_id (some w) r.payload)).length = k ∧
  (∀ r ∈ st.messages.filter (fun r => msgFilter chat_id (some w) r.payload),
    r.payload.created_at = r.payload.timestamp) ∧
  (∀ r ∈ st.messages, r.pid < st.nextId)

/-! ## CapsuleService (`app/services/capsule_service.py`) -/

/-- Map a stored payload to the public `Capsule` shape (`_to_capsule`).
`clock` is the wall time used by the `_dt` fallback for unparsable timestamps. -/
def toCapsule (clock : Nat) (payload : CapsulePayload) : Capsule :=
  { id := pyOrId payload.id payload.capsule_id,
    name := pyStr payload.name "",
    description := pyStr payload.description "",
    category := pyStr payload.category "",
    creator_wallet := pyStr (pyOrS payload.creator_wallet payload.owner_wallet) "",
    price_per_query := pyNum (pyOrQn payload.price_per_query payload.price) 0,
    stake_amount := pyNum payload.stake_amount 0,
    reputation := pyNum payload.reputation 0,
    query_count := pyInt (pyNum payload.query_count 0),
    rating := pyNum payload.rating 0,
    created_at := payload.created_at.getD clock,
    updated_at := payload.updated_at.getD clock,
    metadata := payload.metadata }

/-- `CapsuleService.get_capsule`. -/
def get_capsule (st : St) (capsule_id : Nat) : Option Capsule :=
  match getById st.capsules capsule_id with
  | none => none
  | some rec =>
    if rec.payload = emptyCapsuleP then none else some (toCapsule st.clock rec.payload)

/-- The payload dictionary written by `create_capsule`. -/
def createCapsulePayload (capsule_data : CapsuleCreate) (wallet : String)
    (now capsule_id : Nat) : CapsulePayload :=
  let agent_id := match capsule_data.metadata with
    | some md => md.agent_id
    | none => none
  { type := some "capsule", created_at := some now, updated_at := some now,
    id := some capsule_id, capsule_id := some capsule_id, agent_id := agent_id,
    owner_wallet := some wallet, price := some capsule_data.price_per_query,
    is_listed := some false, name := some capsule_data.name,
    description := some capsule_data.description, category := some capsule_data.category,
    creator_wallet := some wallet, price_per_query := some capsule_data.price_per_query,
    stake_amount := some 0, reputation := some 0, query_count := some 0,
    rating := some 0, metadata := some (capsule_data.metadata.getD {}) }

/-- `CapsuleService.create_capsule`: embed `name+description+category`, store the
payload with `stake_amount=0.0` and `is_listed=False`. -/
def create_capsule (embed : String → List ℚ) (st : St) (capsule_data : CapsuleCreate)
    (wallet : String) : St × Capsule :=
  let capsule_id := st.nextId
  let now := st.clock
  let text_for_embedding :=
    (capsule_data.name ++ "\n" ++ capsule_data.description ++ "\n" ++ capsule_data.category).trim
  let vec := embed text_for_embedding
  let payload := createCapsulePayload capsule_data wallet now capsule_id
  ({ st with capsules := upsertPt st.capsules capsule_id payload (some vec),
             clock := st.clock + 1, nextId := st.nextId + 1 },
   toCapsule st.clock payload)

/-! ### Payment verification against the chain RPC

The external `getTransaction` RPC response carries the transaction's metadata,
including its success status (`meta.err`), its lamport transfer amount and its
sender/recipient accounts.  `_verify_payment` only ever reads `result`, `meta`
and `meta.err`; the other fields are carried in the model so that what the code
does *not* inspect is observable. -/

/-- The metadata of a confirmed Solana transaction, as returned by the RPC.
`err = none` means the transaction succeeded. -/
structure TxMeta where
  err : Option String
  amount : ℚ
  sender : String
  recipient : String
deriving DecidableEq

/-- The outcome of one `getTransaction` RPC call. -/
inductive ChainResp where
  /-- Transport error: the HTTP call raised. -/
  | transportError
  /-- `"result"` missing or null: unknown signature. -/
  | noResult
  /-- A transaction, with its optional metadata. -/
  | tx (meta : Option TxMeta)
deriving DecidableEq

/-- `CapsuleService._verify_payment`: posts `getTransaction(signature)` and
checks the response.  Any exception yields `False`. -/
def verify_payment (chain : String → ChainResp) (signature sender recipient : String)
    (amount : ℚ) : Bool :=
  match chain signature with
  | .transportError => false
  | .noResult => false
  | .tx meta =>
    match meta with
    | none => false
    | some m => if m.err.isSome then false else true

/-- `CapsuleService._record_earnings`: append an earnings record. -/
def record_earnings (st : St) (capsule_id : Nat) (wallet : String) (amount : ℚ)
    (source : String) : St :=
  let now := st.clock
  let earning_id := st.nextId
  let payload : EarningPayload :=
    { type := some "earning", created_at := some now, updated_at := some now,
      id := some earning_id, wallet := some wallet, capsule_id := some capsule_id,
      amount := some amount, source := some source, timestamp := some now,
      wallet_address := some wallet }
  { st with earnings := upsertPt st.earnings earning_id payload none,
            clock := st.clock + 1, nextId := st.nextId + 1 }

/-- `CapsuleService._increment_query_count`: read-modify-write
`int(float(query_count or 0) + 1)` via `set_payload`. -/
def increment_query_count (st : St) (capsule_id : Nat) : St :=
  match getById st.capsules capsule_id with
  | none => st
  | some rec =>
    if rec.payload = emptyCapsuleP then st else
    let payload := rec.payload
    let current := pyNum payload.query_count 0
    let payload2 := { payload with query_count := some ((pyInt (current + 1) : ℤ) : ℚ),
                                   updated_at := some st.clock }
    { st with capsules := setPayloadPt st.capsules capsule_id payload2,
              clock := st.clock + 1 }

/-- The response dictionary of `query_capsule` (the interpolated response text is
abstracted to its constituent data). -/
structure QueryResponse where
  capsule_name : String
  capsule_id : Nat
  price_paid : ℚ
deriving DecidableEq

/-- `CapsuleService.query_capsule`: optional payment verification (only when both
a truthy signature and a truthy amount are supplied), earnings recording, then
the query-count increment.  A raised exception propagates together with the
mutations already performed; a failed verification raises before any mutation,
so the state it leaves behind is the input state. -/
def query_capsule (chain : String → ChainResp) (st : St) (capsule_id : Nat)
    (wallet : String) (payment_signature : Option String) (amount_paid : Option ℚ) :
    St × Except String QueryResponse :=
  match get_capsule st capsule_id with
  | none => (st, .error "Capsule not found")
  | some capsule =>
    let withPayment := truthyS payment_signature && truthyQ amount_paid
    if withPayment then
      let verified := verify_payment chain (payment_signature.getD "") wallet
        capsule.creator_wallet (amount_paid.getD 0)
      if !verified then (st, .error "Payment verification failed") else
      let st1 := record_earnings st capsule_id capsule.creator_wallet
        (amount_paid.getD 0) "usage"
      let st2 := increment_query_count st1 capsule_id
      (st2, .ok ⟨capsule.name, capsule_id, pyNum amount_paid 0⟩)
    else
      let st2 := increment_query_count st capsule_id
      (st2, .ok ⟨capsule.name, capsule_id, pyNum amount_paid 0⟩)

/-! ## WalletService (`app/services/wallet_service.py`) -/

/-- `WalletService.create_staking`: append a staking record, then fold the amount
into the capsule's `stake_amount` and recompute `is_listed`. -/
def create_staking (st : St) (staking : StakingCreate) (wallet_address : String) :
    St × StakingInfo :=
  let now := st.clock
  let stake_id := st.nextId
  let payload : StakingPayload :=
    { type := some "staking", created_at := some now, updated_at := some now,
      id := some stake_id, capsule_id := some staking.capsule_id,
      staker_wallet := some wallet_address, amount := some staking.stake_amount,
      timestamp := some now, wallet_address := some wallet_address,
      stake_amount := some staking.stake_amount, staked_at := some now }
  let st1 := { st with staking := upsertPt st.staking stake_id payload none,
                       nextId := st.nextId + 1 }
  let st2 := match getById st1.capsules staking.capsule_id with
    | none => st1
    | some rec =>
      if rec.payload = emptyCapsuleP then st1 else
      let cap := rec.payload
      let current := pyNum cap.stake_amount 0
      let new_stake := current + staking.stake_amount
      let cap2 := { cap with stake_amount := some new_stake,
                             is_listed := some (decide (0 < new_stake)),
                             updated_at := some now }
      { st1 with capsules := setPayloadPt st1.capsules staking.capsule_id cap2 }
  ({ st2 with clock := st.clock + 1 },
   ⟨staking.capsule_id, wallet_address, staking.stake_amount, now⟩)

/-! ## MarketplaceService (`app/services/marketplace_service.py`) -/

/-- A Qdrant `Range(gt=x)` condition on an optional numeric payload field:
an absent field never matches. -/
def rangeGt (v : Option ℚ) (x : ℚ) : Bool :=
  match v with
  | some q => decide (x < q)
  | none => false

/-- A Qdrant `Range(gte=x)` condition. -/
def rangeGte (v : Option ℚ) (x : ℚ) : Bool :=
  match v with
  | some q => decide (x ≤ q)
  | none => false

/-- A Qdrant `Range(lte=x)` condition. -/
def rangeLte (v : Option ℚ) (x : ℚ) : Bool :=
  match v with
  | some q => decide (q ≤ x)
  | none => false

/-- The `must` filter of `browse_capsules`: always `stake_amount > 0`, plus the
optional category / reputation / price predicates.  The category condition is
added under Python truthiness, the numeric ones under `is not None`. -/
def browseFilter (filters : MarketplaceFilters) (p : CapsulePayload) : Bool :=
  rangeGt p.stake_amount 0 &&
  (!truthyS filters.category || p.category == filters.category) &&
  (match filters.min_reputation with
   | some r => rangeGte p.reputation r
   | none => true) &&
  (match filters.max_price with
   | some m => rangeLte p.price_per_query m
   | none => true)

/-- The in-memory sorting step of `browse_capsules`.  Python's stable
`list.sort(key, reverse=True)` is a stable sort under the reversed
comparison. -/
def browseSort (sort_by : String) (capsules : List Capsule) : List Capsule :=
  if sort_by = "popular" then
    List.insertionSort (fun a b => b.query_count ≤ a.query_count) capsules
  else if sort_by = "newest" then
    List.insertionSort (fun a b => b.created_at ≤ a.created_at) capsules
  else if sort_by = "price_low" then
    List.insertionSort (fun a b => a.price_per_query ≤ b.price_per_query) capsules
  else if sort_by = "price_high" then
    List.insertionSort (fun a b => b.price_per_query ≤ a.price_per_query) capsules
  else if sort_by = "rating" then
    List.insertionSort (fun a b => b.rating ≤ a.rating) capsules
  else
    capsules

/-- `MarketplaceService.browse_capsules`: fetch a window of
`min(max(offset+limit, 50), 1000)` filtered capsules in one scroll call, sort in
memory, slice `[offset : offset+limit]`. -/
def browse_capsules (st : St) (filters : MarketplaceFilters) (limit offset : Nat) :
    List Capsule :=
  let fetch_limit := min (max (offset + limit) 50) 1000
  let points := (st.capsules.filter (fun r => browseFilter filters r.payload)).take fetch_limit
  let capsules := (points.filter (fun r => !(r.payload == emptyCapsuleP))).map
    (fun r => toCapsule st.clock r.payload)
  let sort_by := pyStr filters.sort_by "popular"
  ((browseSort sort_by capsules).drop offset).take limit

theorem scrollAllGo_eq {α : Type} (recs : List α) :
    ∀ (fuel off : Nat) (acc : List α), recs.length ≤ off + 200 * fuel →
      scrollAllGo recs fuel off acc = acc ++ recs.drop off := by
  intro fuel
  induction fuel with
  | zero =>
    intro off acc h
    simp only [Nat.mul_zero, Nat.add_zero] at h
    simp [scrollAllGo, List.drop_eq_nil_of_le h]
  | succ n ih =>
    intro off acc h
    simp only [scrollAllGo, scrollOnce]
    by_cases hlt : off + 200 < recs.length
    · simp only [hlt, if_pos]
      rw [ih (off + 200) _ (by omega), List.append_assoc]
      congr 1
      have hdd : recs.drop (off + 200) = (recs.drop off).drop 200 := by
        rw [List.drop_drop]
      rw [hdd]
      exact List.take_append_drop 200 (recs.drop off)
    · simp only [hlt, if_neg, not_false_iff]
      congr 1
      apply List.take_of_length_le
      rw [List.length_drop]
      omega

theorem scrollAll_eq {α : Type} (recs : List α) : scrollAll recs = recs := by
  have h := scrollAllGo_eq recs (recs.length + 1) 0 [] (by omega)
  simpa [scrollAll] using h

theorem scrollLimitedGo_eq {α : Type} (recs : List α) (limit : Nat) :
    ∀ (fuel off : Nat) (acc : List α), acc = recs.take off → off ≤ recs.length →
      limit < off + fuel → (off < limit ∨ off = 0) →
      scrollLimitedGo recs limit fuel off acc = recs.take limit := by
  intro fuel
  induction fuel with
  | zero =>
    intro off acc _ _ hfuel hcase
    omega
  | succ n ih =>
    intro off acc hacc hoff hfuel hcase
    have hlen : acc.length = off := by
      rw [hacc, List.length_take]
      omega
    have hoffle : off ≤ limit := by omega
    simp only [scrollLimitedGo, scrollOnce, hlen]
    have hacc2 : acc ++ (recs.drop off).take (min 200 (limit - off)) =
        recs.take (off + min 200 (limit - off)) := by
      rw [hacc, List.take_add]
    by_cases hlt : off + min 200 (limit - off) < recs.length
    · simp only [hlt, if_pos]
      rw [hacc2]
      by_cases hdone : limit ≤ (recs.take (off + min 200 (limit - off))).length
      · simp only [hdone, if_pos]
        have : off + min 200 (limit - off) = limit := by
          rw [List.length_take] at hdone
          omega
        rw [this]
      · simp only [hdone, if_neg, not_false_iff]
        rw [List.length_take] at hdone
        apply ih
        · rfl
        · omega
        · omega
        · omega
    · simp only [hlt, if_neg, not_false_iff]
      rw [hacc2]
      have hrecs : recs.length ≤ limit := by omega
      rw [List.take_of_length_le (by omega), List.take_of_length_le hrecs]

theorem scrollLimited_eq {α : Type} (recs : List α) (limit : Nat) :
    scrollLimited recs limit = recs.take limit := by
  apply scrollLimitedGo_eq recs limit (limit + 1) 0 [] rfl (by omega) (by omega)
  omega

/-! ## Store helper lemmas -/

theorem find?_replaced {P : Type} (pid : Nat) (p : P) (v : Option (List ℚ)) :
    ∀ recs : List (Pt P), recs.any (fun r => r.pid == pid) = true →
      (recs.map (fun r => if r.pid == pid then ⟨pid, p, v⟩ else r)).find?
        (fun r => r.pid == pid) = some ⟨pid, p, v⟩ := by
  intro recs
  induction recs with
  | nil => simp
  | cons a t ih =>
    intro h
    by_cases ha : a.pid == pid
    · simp [ha, List.find?]
    · have haf : (a.pid == pid) = false := by simpa using ha
      simp only [List.any_cons, haf, Bool.false_or] at h
      rw [List.map_cons, if_neg (by simp [haf]),
        List.find?_cons_of_neg _ (by simp [haf])]
      exact ih h

theorem getById_upsertPt {P : Type} (recs : List (Pt P)) (pid : Nat) (p : P)
    (v : Option (List ℚ)) :
    getById (upsertPt recs pid p v) pid = some ⟨pid, p, v⟩ := by
  unfold getById upsertPt
  by_cases hany : recs.any (fun r => r.pid == pid) = true
  · rw [if_pos hany]
    exact find?_replaced pid p v recs hany
  · rw [if_neg hany]
    rw [List.find?_append]
    have hnone : recs.find? (fun r => r.pid == pid) = none := by
      rw [List.find?_eq_none]
      intro x hx
      intro hpx
      exact hany (List.any_eq_true.mpr ⟨x, hx, hpx⟩)
    simp [hnone, List.find?]

theorem getById_setPayloadPt {P : Type} (pid : Nat) (p : P) :
    ∀ (recs : List (Pt P)) (r : Pt P), getById recs pid = some r →
      getById (setPayloadPt recs pid p) pid = some ⟨r.pid, p, r.vec⟩ := by
  intro recs
  induction recs with
  | nil => intro r h; simp [getById] at h
  | cons a t ih =>
    intro r h
    by_cases ha : a.pid == pid
    · simp only [getById, List.find?, ha] at h
      cases h
      simp [setPayloadPt, getById, List.find?, ha]
    · have haf : (a.pid == pid) = false := by simpa using ha
      rw [getById, List.find?_cons_of_neg _ (by simp [haf])] at h
      unfold setPayloadPt
      rw [List.map_cons, if_neg (by simp [haf]), getById,
        List.find?_cons_of_neg _ (by simp [haf])]
      exact ih r h

theorem getById_deleteById {P : Type} (recs : List (Pt P)) (pid : Nat) :
    getById (deleteById recs pid) pid = none := by
  unfold getById deleteById
  rw [List.find?_eq_none]
  intro x hx
  have := (List.mem_filter.mp hx).2
  simp only [Bool.not_eq_true'] at this
  simp [this]

theorem pyInt_intCast (n : ℤ) : pyInt ((n : ℚ)) = n := by
  unfold pyInt
  rw [Rat.num_intCast, Rat.den_intCast]
  exact Int.tdiv_one n

theorem pyNum_some_zero (q : ℚ) : pyNum (some q) 0 = q := by
  by_cases h : q = 0
  · subst h
    rfl
  · simp [pyNum, h]

/-! ## C9: secret-cipher wrapper -/

/-- **C9.** For every Fernet-like cipher (round-tripping, with non-empty tokens
for non-empty plaintexts): `decrypt_secret (encrypt_secret s) = s` for every
string including the empty string; both functions pass `""` through as `""` and
`none` through as `none`; and decrypting a tampered/invalid ciphertext (one the
cipher rejects) raises the loud decryption error instead of returning a value. -/
theorem c9_secret_cipher (c : Cipher)
    (hrt : ∀ s : String, c.dec (c.enc s) = some s)
    (hne : ∀ s : String, s ≠ "" → c.enc s ≠ "") :
    (∀ s : String, decrypt_secret c (encrypt_secret c (some s)) = .ok (some s)) ∧
    encrypt_secret c (some "") = some "" ∧
    encrypt_secret c none = none ∧
    decrypt_secret c (some "") = .ok (some "") ∧
    decrypt_secret c none = .ok none ∧
    (∀ t : String, t ≠ "" → c.dec t = none →
      decrypt_secret c (some t) =
        .error "Failed to decrypt secret (invalid token or wrong key)") := by
  refine ⟨?_, rfl, rfl, rfl, rfl, ?_⟩
  · intro s
    by_cases hs : s = ""
    · subst hs
      rfl
    · simp only [encrypt_secret, if_neg hs, decrypt_secret, if_neg (hne s hs), hrt]
  · intro t ht hdec
    simp only [decrypt_secret, if_neg ht, hdec]

/-- A concrete Fernet-like cipher for witnesses: prepend a marker character;
reject any string not carrying it. -/
def exCipher : Cipher where
  enc := fun s => ⟨'E' :: s.data⟩
  dec := fun t =>
    match t.data with
    | 'E' :: r => some ⟨r⟩
    | _ => none

theorem exCipher_roundtrip : ∀ s : String, exCipher.dec (exCipher.enc s) = some s := by
  intro s
  rfl

theorem exCipher_nonempty : ∀ s : String, s ≠ "" → exCipher.enc s ≠ "" := by
  intro s _ h
  have : ('E' :: s.data) = ([] : List Char) := congrArg String.data h
  cases this

/-- Witness for C9 at concrete inputs. -/
theorem c9_secret_cipher_witness :
    decrypt_secret exCipher (encrypt_secret exCipher (some "sk-live-123")) =
      .ok (some "sk-live-123") ∧
    decrypt_secret exCipher (some "tampered") =
      .error "Failed to decrypt secret (invalid token or wrong key)" :=
  ⟨(c9_secret_cipher exCipher exCipher_roundtrip exCipher_nonempty).1 "sk-live-123",
   (c9_secret_cipher exCipher exCipher_roundtrip exCipher_nonempty).2.2.2.2.2 "tampered"
     (by decide) (by decide)⟩

/-! ## C2: payment verification -/

/-- A successful on-chain transaction whose amount, sender and recipient all
differ from what the capsule query expects. -/
def exMeta : TxMeta := ⟨none, 1, "X", "Y"⟩

/-- A chain RPC that answers every signature with `exMeta`'s transaction. -/
def exChain : String → ChainResp := fun _ => .tx (some exMeta)

/-- **C2 counterexample.** `_verify_payment` accepts a transaction whose amount
(1), sender (`"X"`) and recipient (`"Y"`) all differ from the expected amount
(999), sender (`"A"`) and recipient (`"B"`): the claim that verification checks
the transaction's amount, sender and recipient is false. -/
theorem c2_counterexample :
    verify_payment exChain "sig" "A" "B" 999 = true ∧
    exChain "sig" = .tx (some exMeta) ∧
    exMeta.err = none ∧ exMeta.amount ≠ 999 ∧ exMeta.sender ≠ "A" ∧
    exMeta.recipient ≠ "B" := by
  refine ⟨rfl, rfl, rfl, by decide, by decide, by decide⟩

/-- **C2 (amended).** Payment verification checks only that the transaction
exists and succeeded (`meta` present with no `err`): its result is independent
of the supplied amount, sender and recipient; any transport error or
missing/failed transaction yields `false` (not-verified), never an exception;
and a `query_capsule` that supplies a payment and succeeds had a verified
transaction (verification precedes the earnings record and the count
increment). -/
theorem c2_payment_verification (chain : String → ChainResp) (sig : String) :
    (∀ s r a s2 r2 a2, verify_payment chain sig s r a = verify_payment chain sig s2 r2 a2) ∧
    (∀ s r a, verify_payment chain sig s r a = true ↔
      ∃ m, chain sig = .tx (some m) ∧ m.err = none) ∧
    (∀ (st : St) (cid : Nat) (w : String) (amt : ℚ) (resp : QueryResponse)
      (cap : Capsule),
      get_capsule st cid = some cap →
      (query_capsule chain st cid w (some sig) (some amt)).2 = .ok resp →
      sig ≠ "" → amt ≠ 0 →
      verify_payment chain sig w cap.creator_wallet amt = true) := by
  refine ⟨?_, ?_, ?_⟩
  · intro s r a s2 r2 a2
    rfl
  · intro s r a
    unfold verify_payment
    constructor
    · intro h
      cases hres : chain sig with
      | transportError => rw [hres] at h; simp at h
      | noResult => rw [hres] at h; simp at h
      | tx meta =>
        cases meta with
        | none => rw [hres] at h; simp at h
        | some m =>
          refine ⟨m, rfl, ?_⟩
          rw [hres] at h
          by_cases he : m.err.isSome
          · simp [he] at h
          · exact Option.not_isSome_iff_eq_none.mp he
    · rintro ⟨m, hm, he⟩
      rw [hm]
      simp [he]
  · intro st cid w amt resp cap hcap hok hsig hamt
    by_cases hv : verify_payment chain sig w cap.creator_wallet amt = true
    · exact hv
    · exfalso
      have hpay : (truthyS (some sig) && truthyQ (some amt)) = true := by
        simp [truthyS, truthyQ, hsig, hamt]
      rw [Bool.not_eq_true] at hv
      simp only [query_capsule, hcap, hpay, if_true, Option.getD_some] at hok
      rw [hv] at hok
      simp at hok

/-- Witness for C2's amended theorem at concrete inputs. -/
theorem c2_payment_verification_witness :
    verify_payment exChain "sig" "A" "B" 999 = verify_payment exChain "sig" "C" "D" 5 ∧
    (verify_payment exChain "sig" "A" "B" 999 = true ↔
      ∃ m, exChain "sig" = .tx (some m) ∧ m.err = none) :=
  ⟨(c2_payment_verification exChain "sig").1 "A" "B" 999 "C" "D" 5,
   (c2_payment_verification exChain "sig").2.1 "A" "B" 999⟩

/-! ## C3: invalid payment leaves state unchanged; zero amount is an unpaid query -/

/-- **C3.** With a truthy signature, a positive amount, and an unverifiable
payment, `query_capsule` raises the payment-verification failure and returns
the store unchanged (no earnings record, no `query_count` increment).  With
`amount_paid = 0` it behaves as an unpaid query: `query_count` goes up by
exactly 1 (for integral stored counts) and the earnings collection is
untouched. -/
theorem c3_query_capsule_payment (chain : String → ChainResp) (st : St)
    (cid : Nat) (w : String) (sig : String) (amt : ℚ) (sigOpt : Option String)
    (rec : Pt CapsulePayload) (cap : Capsule)
    (hrec : getById st.capsules cid = some rec)
    (hne : rec.payload ≠ emptyCapsuleP)
    (hint : ∃ n : ℤ, pyNum rec.payload.query_count 0 = (n : ℚ)) :
    (get_capsule st cid = some cap → sig ≠ "" → 0 < amt →
      verify_payment chain sig w cap.creator_wallet amt = false →
      query_capsule chain st cid w (some sig) (some amt) =
        (st, .error "Payment verification failed")) ∧
    ((query_capsule chain st cid w sigOpt (some 0)).1.earnings = st.earnings ∧
      ∃ resp, (query_capsule chain st cid w sigOpt (some 0)).2 = .ok resp ∧
      getById (query_capsule chain st cid w sigOpt (some 0)).1.capsules cid =
        some ⟨rec.pid, { rec.payload with
          query_count := some (pyNum rec.payload.query_count 0 + 1),
          updated_at := some st.clock }, rec.vec⟩) := by
  have hget : get_capsule st cid = some (toCapsule st.clock rec.payload) := by
    simp only [get_capsule, hrec, if_neg hne]
  constructor
  · intro hcap hsig hamt hver
    have hpay : (truthyS (some sig) && truthyQ (some amt)) = true := by
      simp only [truthyS, truthyQ, Bool.and_eq_true, Bool.not_eq_true', beq_eq_false_iff_ne]
      exact ⟨hsig, ne_of_gt hamt⟩
    simp only [query_capsule, hcap, hpay, if_true, Option.getD_some, hver]
    simp
  · have hoff : (truthyS sigOpt && truthyQ (some 0)) = false := by
      simp [truthyQ]
    have hinc : increment_query_count st cid = { st with capsules := setPayloadPt st.capsules cid ({ rec.payload with query_count := some (pyNum rec.payload.query_count 0 + 1), updated_at := some st.clock }), clock := st.clock + 1 } := by
      obtain ⟨n, hn⟩ := hint
      have hcast : ((pyInt (pyNum rec.payload.query_count 0 + 1) : ℤ) : ℚ) =
          pyNum rec.payload.query_count 0 + 1 := by
        rw [hn]
        have h2 : (n : ℚ) + 1 = ((n + 1 : ℤ) : ℚ) := by push_cast; ring
        rw [h2, pyInt_intCast]
      simp only [increment_query_count, hrec, if_neg hne, hcast]
    have hq : query_capsule chain st cid w sigOpt (some 0) =
        (increment_query_count st cid,
         .ok ⟨(toCapsule st.clock rec.payload).name, cid, pyNum (some 0) 0⟩) := by
      simp only [query_capsule, hget, hoff, Bool.false_eq_true, if_false]
    rw [hq, hinc]
    refine ⟨rfl, ⟨_, rfl, ?_⟩⟩
    exact getById_setPayloadPt cid _ st.capsules rec hrec

/-- A chain RPC that fails with a transport error on every call. -/
def exFailChain : String → ChainResp := fun _ => .transportError

/-- The capsule payload used by the C3 witness (owner `"R"`, `query_count = 2`). -/
def exC3P : CapsulePayload :=
  { emptyCapsuleP with creator_wallet := some "R", query_count := some 2 }

/-- A store holding one capsule (id 1) with payload `exC3P`. -/
def exC3St : St :=
  { capsules := [⟨1, exC3P, none⟩] }

/-- Witness for C3 at a concrete store: an unverifiable paid query errors and
returns the store unchanged; a zero-amount query leaves earnings untouched. -/
theorem c3_query_capsule_payment_witness :
    query_capsule exFailChain exC3St 1 "S" (some "sig") (some 3) =
      (exC3St, .error "Payment verification failed") ∧
    (query_capsule exFailChain exC3St 1 "S" none (some 0)).1.earnings =
      exC3St.earnings := by
  have h := c3_query_capsule_payment exFailChain exC3St 1 "S" "sig" 3 none
    ⟨1, exC3P, none⟩ (toCapsule exC3St.clock exC3P)
    (by decide) (by decide) ⟨2, by norm_num [pyNum, exC3P]⟩
  exact ⟨h.1 (by decide) (by decide) (by norm_num) (by decide), h.2.1⟩

/-! ## C6: staking accumulates and lists -/

theorem create_capsule_stored (embed : String → List ℚ) (st : St)
    (capsule_data : CapsuleCreate) (wallet : String) :
    ∃ v, getById (create_capsule embed st capsule_data wallet).1.capsules st.nextId =
      some ⟨st.nextId, createCapsulePayload capsule_data wallet st.clock st.nextId, v⟩ :=
  ⟨_, getById_upsertPt st.capsules st.nextId _ _⟩

theorem createCapsulePayload_ne_empty (capsule_data : CapsuleCreate) (wallet : String)
    (now capsule_id : Nat) :
    createCapsulePayload capsule_data wallet now capsule_id ≠ emptyCapsuleP := by
  intro h
  have h2 := congrArg CapsulePayload.type h
  simp [createCapsulePayload, emptyCapsuleP] at h2

theorem create_staking_stored (st : St) (cid : Nat) (amt : ℚ) (w : String)
    (rec : Pt CapsulePayload)
    (hrec : getById st.capsules cid = some rec)
    (hne : rec.payload ≠ emptyCapsuleP) :
    getById (create_staking st ⟨cid, amt⟩ w).1.capsules cid =
      some ⟨rec.pid, ({ rec.payload with stake_amount := some (pyNum rec.payload.stake_amount 0 + amt), is_listed := some (decide (0 < pyNum rec.payload.stake_amount 0 + amt)), updated_at := some st.clock }), rec.vec⟩ := by
  simp only [create_staking, hrec, if_neg hne]
  exact getById_setPayloadPt cid _ st.capsules rec hrec

/-- **C6.** A freshly created capsule is stored with `stake_amount = 0` and
`is_listed = false`; staking an amount on an existing capsule adds it to the
stored `stake_amount` and sets `is_listed` to `stake_amount > 0` (so staking a
non-negative amount never decreases the stake; staking 5 then 7 on a fresh
capsule stores 12 and lists it; staking 0 on a fresh capsule leaves it
unlisted). -/
theorem c6_staking (embed : String → List ℚ) (st : St) (capsule_data : CapsuleCreate)
    (w w1 w2 : String) (cid : Nat) (amt : ℚ) (rec : Pt CapsulePayload)
    (hrec : getById st.capsules cid = some rec)
    (hne : rec.payload ≠ emptyCapsuleP) :
    ((create_capsule embed st capsule_data w).2.stake_amount = 0 ∧
      (getById (create_capsule embed st capsule_data w).1.capsules st.nextId).map
        (fun r => (r.payload.stake_amount, r.payload.is_listed)) =
        some (some 0, some false)) ∧
    ((getById (create_staking st ⟨cid, amt⟩ w1).1.capsules cid).map
        (fun r => (r.payload.stake_amount, r.payload.is_listed)) =
      some (some (pyNum rec.payload.stake_amount 0 + amt),
            some (decide (0 < pyNum rec.payload.stake_amount 0 + amt)))) ∧
    (0 ≤ amt →
      pyNum rec.payload.stake_amount 0 ≤ pyNum rec.payload.stake_amount 0 + amt) ∧
    ((getById (create_staking (create_staking (create_capsule embed st capsule_data w).1
          ⟨st.nextId, 5⟩ w1).1 ⟨st.nextId, 7⟩ w2).1.capsules st.nextId).map
        (fun r => (r.payload.stake_amount, r.payload.is_listed)) =
      some (some 12, some true)) ∧
    ((getById (create_staking (create_capsule embed st capsule_data w).1
          ⟨st.nextId, 0⟩ w1).1.capsules st.nextId).map
        (fun r => (r.payload.stake_amount, r.payload.is_listed)) =
      some (some 0, some false)) := by
  obtain ⟨v0, hc0⟩ := create_capsule_stored embed st capsule_data w
  have hne0 := createCapsulePayload_ne_empty capsule_data w st.clock st.nextId
  refine ⟨⟨?_, ?_⟩, ?_, ?_, ?_, ?_⟩
  · rfl
  · rw [hc0]
    rfl
  · have h := create_staking_stored st cid amt w1 rec hrec hne
    rw [h]
    rfl
  · intro h
    linarith
  · have h5 := create_staking_stored (create_capsule embed st capsule_data w).1
      st.nextId 5 w1 _ hc0 hne0
    have hne5 : ({ createCapsulePayload capsule_data w st.clock st.nextId with stake_amount := some (pyNum (createCapsulePayload capsule_data w st.clock st.nextId).stake_amount 0 + 5), is_listed := some (decide (0 < pyNum (createCapsulePayload capsule_data w st.clock st.nextId).stake_amount 0 + 5)), updated_at := some (create_capsule embed st capsule_data w).1.clock } : CapsulePayload) ≠ emptyCapsuleP := by
      intro h
      have h2 := congrArg CapsulePayload.type h
      simp [createCapsulePayload, emptyCapsuleP] at h2
    have h7 := create_staking_stored (create_staking (create_capsule embed st capsule_data w).1
      ⟨st.nextId, 5⟩ w1).1 st.nextId 7 w2 _ h5 hne5
    rw [h7]
    have hs : pyNum (createCapsulePayload capsule_data w st.clock st.nextId).stake_amount 0 = 0 := by
      rfl
    simp only [hs, Option.map_some, pyNum_some_zero]
    norm_num
  · have h0 := create_staking_stored (create_capsule embed st capsule_data w).1
      st.nextId 0 w1 _ hc0 hne0
    rw [h0]
    have hs : pyNum (createCapsulePayload capsule_data w st.clock st.nextId).stake_amount 0 = 0 := by
      rfl
    simp only [hs, Option.map_some]
    norm_num

/-- Witness for C6 at a concrete store: a capsule created on the empty store,
then staked. -/
theorem c6_staking_witness :
    (getById (create_staking {} ⟨1, 5⟩ "w1").1.capsules 1).map
        (fun r => (r.payload.stake_amount, r.payload.is_listed)) = none ∧
    (getById (create_staking (create_capsule (fun _ => [(0 : ℚ)]) {}
          ⟨"n", "d", "c", 3, none⟩ "w").1 ⟨1, 5⟩ "w1").1.capsules 1).map
        (fun r => (r.payload.stake_amount, r.payload.is_listed)) =
      some (some 5, some true) := by
  constructor
  · decide
  · have h := (c6_staking (fun _ => [(0 : ℚ)]) (create_capsule (fun _ => [(0 : ℚ)]) {} ⟨"n", "d", "c", 3, none⟩ "w").1 ⟨"n", "d", "c", 3, none⟩ "w" "w1" "w2" 1 5 ⟨1, createCapsulePayload ⟨"n", "d", "c", 3, none⟩ "w" 0 1, some [0]⟩ (by decide) (by decide)).2.1
    rw [h]
    have hs : pyNum (createCapsulePayload ⟨"n", "d", "c", 3, none⟩ "w" 0 1).stake_amount 0 = 0 := rfl
    rw [hs]
    norm_num

/-! ## C1: API-key exposure -/

/-- An agent payload owned by wallet `"W2"` with a validly encrypted key. -/
def exAgentP : AgentPayload :=
  { wallet := some "W2", name := some "a",
    api_key_encrypted := some (exCipher.enc "sk-123") }

/-- A store holding that one agent under id 1. -/
def exAgentSt : St :=
  { agents := [⟨1, exAgentP, none⟩] }

/-- **C1 counterexample.**  `get_agent` with *no* caller wallet skips the
ownership check and decrypts the stored key: the returned agent of an agent
owned by `"W2"` carries the plaintext `"sk-123"` even though the caller
supplied no wallet at all, contradicting the claim that the key is absent
whenever the caller does not supply the owner wallet. -/
theorem c1_counterexample :
    (get_agent exCipher exAgentSt 1 none).map (fun a => a.map Agent.api_key) =
      .ok (some (some "sk-123")) ∧
    exAgentP.wallet = some "W2" := by
  constructor
  · rfl
  · rfl

/-- **C1 (amended).**  The plaintext API key appears in a returned `Agent` only
through `get_agent`, and there only when the caller supplies a wallet equal to
the stored owner wallet *or supplies no wallet at all* (no enforcement without
a supplied wallet); `get_user_agents` results, `create_agent`'s return value
and `update_agent`'s return value always carry `api_key = none`, independent of
the stored key, and `get_agent` under a mismatched wallet returns nothing. -/
theorem c1_api_key_exposure (c : Cipher) (st : St) (agent_id : Nat) (w : String)
    (agent_data : AgentCreate) (agent_update : AgentUpdate) :
    (∀ wallet a, a ∈ get_user_agents st wallet → a.api_key = none) ∧
    ((create_agent c st agent_data w).2.api_key = none) ∧
    (∀ res, update_agent st agent_id agent_update w = .ok res →
      res.2.api_key = none) ∧
    (∀ rec, getById st.agents agent_id = some rec → w ≠ "" →
      rec.payload.wallet ≠ some w → get_agent c st agent_id (some w) = .ok none) ∧
    (∀ rec k p, getById st.agents agent_id = some rec →
      rec.payload ≠ emptyAgentP →
      pyOrS rec.payload.api_key_encrypted rec.payload.api_key = some k → k ≠ "" →
      c.dec k = some p →
      (get_agent c st agent_id none).map (fun a => a.map Agent.api_key) =
        .ok (some (some p)) ∧
      (rec.payload.wallet = some w → w ≠ "" →
        (get_agent c st agent_id (some w)).map (fun a => a.map Agent.api_key) =
          .ok (some (some p)))) := by
  refine ⟨?_, rfl, ?_, ?_, ?_⟩
  · intro wallet a ha
    simp only [get_user_agents, List.mem_map] at ha
    obtain ⟨r, _, hr⟩ := ha
    rw [← hr]
    rfl
  · intro res heq
    cases hrec : getById st.agents agent_id with
    | none =>
      simp only [update_agent, hrec] at heq
      exact Except.noConfusion heq
    | some rec =>
      simp only [update_agent, hrec] at heq
      by_cases hemp : rec.payload = emptyAgentP
      · rw [if_pos hemp] at heq
        exact Except.noConfusion heq
      · rw [if_neg hemp] at heq
        by_cases hw : (rec.payload.wallet == some w) = true
        · rw [hw] at heq
          simp only [Bool.not_true, Bool.false_eq_true, if_false] at heq
          injection heq with h2
          rw [← h2]
        · rw [Bool.not_eq_true] at hw
          rw [hw] at heq
          simp only [Bool.not_false, if_true] at heq
          exact Except.noConfusion heq
  · intro rec hrec hw hmismatch
    have hw2 : (rec.payload.wallet == some w) = false := by
      simpa using hmismatch
    simp only [get_agent, hrec]
    by_cases hemp : rec.payload = emptyAgentP
    · rw [if_pos hemp]
      rfl
    · rw [if_neg hemp]
      have hcheck : (truthyS (some w) && !(rec.payload.wallet == some w)) = true := by
        simp [truthyS, hw, hw2]
      rw [if_pos hcheck]
      rfl
  · intro rec k p hrec hemp hk hkne hdec
    have henc : truthyS (pyOrS rec.payload.api_key_encrypted rec.payload.api_key) = true := by
      rw [hk]
      simp [truthyS, hkne]
    have hdecr : decrypt_secret c (pyOrS rec.payload.api_key_encrypted rec.payload.api_key) =
        .ok (some p) := by
      rw [hk]
      simp only [decrypt_secret, if_neg hkne, hdec]
    constructor
    · simp only [get_agent, hrec, if_neg hemp]
      have hno : (truthyS none && !(rec.payload.wallet == none)) = false := by
        simp [truthyS]
      rw [if_neg (by simp [hno])]
      rw [if_pos henc]
      rw [hdecr]
      rfl
    · intro hown hwne
      simp only [get_agent, hrec, if_neg hemp]
      have hmatch : (truthyS (some w) && !(rec.payload.wallet == some w)) = false := by
        simp [truthyS, hown]
      rw [if_neg (by simp [hmatch])]
      rw [if_pos henc]
      rw [hdecr]
      rfl

/-- Witness for C1's amended theorem at a concrete store: the owner's own read
(and the wallet-less read) expose the key; a mismatched wallet gets nothing. -/
theorem c1_api_key_exposure_witness :
    get_agent exCipher exAgentSt 1 (some "intruder") = .ok none ∧
    (get_agent exCipher exAgentSt 1 (some "W2")).map (fun a => a.map Agent.api_key) =
      .ok (some (some "sk-123")) ∧
    (create_agent exCipher exAgentSt ⟨"n", "d", "p", none, some "sk"⟩ "W2").2.api_key = none := by
  have h := c1_api_key_exposure exCipher exAgentSt 1 "W2" ⟨"n", "d", "p", none, some "sk"⟩ {}
  refine ⟨?_, ?_, h.2.1⟩
  · exact (c1_api_key_exposure exCipher exAgentSt 1 "intruder" ⟨"n", "d", "p", none, some "sk"⟩ {}).2.2.2.1
      ⟨1, exAgentP, none⟩ (by decide) (by decide) (by decide)
  · exact ((h.2.2.2.2 ⟨1, exAgentP, none⟩ (exCipher.enc "sk-123") "sk-123"
      (by decide) (by decide) (by decide) (by decide) (by decide)).2 (by decide) (by decide))

/-! ## C7 and C8: marketplace browse -/

theorem slice_sublist {α : Type} (l : List α) (o k : Nat) :
    ((l.drop o).take k).Sublist l :=
  (List.take_sublist k (l.drop o)).trans (List.drop_sublist o l)

theorem mem_of_mem_slice {α : Type} {x : α} {l : List α} {o k : Nat}
    (h : x ∈ (l.drop o).take k) : x ∈ l :=
  (slice_sublist l o k).subset h

theorem browseSort_mem (sort_by : String) (l : List Capsule) (x : Capsule)
    (h : x ∈ browseSort sort_by l) : x ∈ l := by
  unfold browseSort at h
  split_ifs at h <;> simp_all [List.mem_insertionSort]

/-- **C7.** For every filter combination, limit and offset, `browse_capsules`
never returns a capsule whose `stake_amount` is ≤ 0: the base predicate demands
a stored `stake_amount > 0` and the returned shape copies that stored value. -/
theorem c7_browse_staked (st : St) (filters : MarketplaceFilters)
    (limit offset : Nat) (cap : Capsule)
    (hmem : cap ∈ browse_capsules st filters limit offset) : 0 < cap.stake_amount := by
  simp only [browse_capsules] at hmem
  have h1 := mem_of_mem_slice hmem
  have h2 := browseSort_mem _ _ _ h1
  obtain ⟨r, hr, hcap⟩ := List.mem_map.mp h2
  have hr2 := (List.mem_filter.mp hr).1
  have hr3 := (List.take_sublist _ _).subset hr2
  have hfilt := (List.mem_filter.mp hr3).2
  have hstake : rangeGt r.payload.stake_amount 0 = true := by
    unfold browseFilter at hfilt
    simp only [Bool.and_eq_true] at hfilt
    exact hfilt.1.1.1
  unfold rangeGt at hstake
  cases hv : r.payload.stake_amount with
  | none => rw [hv] at hstake; cases hstake
  | some q =>
    rw [hv] at hstake
    have hq : 0 < q := of_decide_eq_true hstake
    rw [← hcap]
    show 0 < pyNum r.payload.stake_amount 0
    rw [hv, pyNum_some_zero]
    exact hq

/-- Witness for C7: a browse over a store holding one staked capsule returns it. -/
theorem c7_browse_staked_witness :
    (0 : ℚ) <
      (toCapsule 0 ({ emptyCapsuleP with stake_amount := some 2 })).stake_amount :=
  c7_browse_staked
    { capsules := [⟨1, { emptyCapsuleP with stake_amount := some 2 }, none⟩] } {} 10 0
    (toCapsule 0 ({ emptyCapsuleP with stake_amount := some 2 })) (by decide)

/-- **C8.** A `browse_capsules` page under sort key `price_low` is non-decreasing
in `price_per_query`, and under `price_high` non-increasing: the window is
sorted in memory by the requested key before the `[offset, offset+limit)`
slice is taken. -/
theorem c8_browse_price_sorted (st : St) (cat : Option String)
    (rep pr : Option ℚ) (limit offset : Nat) :
    (browse_capsules st ⟨cat, rep, pr, some "price_low"⟩ limit offset).Pairwise
      (fun a b => a.price_per_query ≤ b.price_per_query) ∧
    (browse_capsules st ⟨cat, rep, pr, some "price_high"⟩ limit offset).Pairwise
      (fun a b => b.price_per_query ≤ a.price_per_query) := by
  constructor
  · simp only [browse_capsules]
    have hkey : pyStr (some "price_low") "popular" = "price_low" := by decide
    rw [hkey]
    have hsort : browseSort "price_low" = fun l =>
        List.insertionSort (fun a b => a.price_per_query ≤ b.price_per_query) l := by
      funext l
      rfl
    rw [hsort]
    haveI : IsTotal Capsule (fun a b => a.price_per_query ≤ b.price_per_query) :=
      ⟨fun a b => le_total a.price_per_query b.price_per_query⟩
    haveI : IsTrans Capsule (fun a b => a.price_per_query ≤ b.price_per_query) :=
      ⟨fun _ _ _ h1 h2 => le_trans h1 h2⟩
    exact List.Pairwise.sublist (slice_sublist _ offset limit)
      (List.sorted_insertionSort _ _)
  · simp only [browse_capsules]
    have hkey : pyStr (some "price_high") "popular" = "price_high" := by decide
    rw [hkey]
    have hsort : browseSort "price_high" = fun l =>
        List.insertionSort (fun a b => b.price_per_query ≤ a.price_per_query) l := by
      funext l
      rfl
    rw [hsort]
    haveI : IsTotal Capsule (fun a b => b.price_per_query ≤ a.price_per_query) :=
      ⟨fun a b => le_total b.price_per_query a.price_per_query⟩
    haveI : IsTrans Capsule (fun a b => b.price_per_query ≤ a.price_per_query) :=
      ⟨fun _ _ _ h1 h2 => le_trans h2 h1⟩
    exact List.Pairwise.sublist (slice_sublist _ offset limit)
      (List.sorted_insertionSort _ _)

/-! ## Lemmas about messages and chats (shared by C4, C5, C10) -/

theorem upsertPt_append {P : Type} (recs : List (Pt P)) (pid : Nat) (p : P)
    (v : Option (List ℚ)) (h : ∀ r ∈ recs, r.pid ≠ pid) :
    upsertPt recs pid p v = recs ++ [⟨pid, p, v⟩] := by
  unfold upsertPt
  rw [if_neg]
  intro hany
  obtain ⟨r, hr, hpid⟩ := List.any_eq_true.mp hany
  exact h r hr (by simpa using hpid)

theorem list_messages_length (st : St) (chat_id : Nat) (wallet : Option String)
    (limit : Nat) :
    (list_messages st chat_id wallet limit).length =
      min limit (st.messages.filter (fun r => msgFilter chat_id wallet r.payload)).length := by
  simp only [list_messages, List.length_map, List.length_insertionSort, scrollLimited_eq,
    List.length_take]

theorem get_chat_owner (st : St) (chat_id : Nat) (w : String) (rec : Pt ChatPayload)
    (hrec : getById st.chats chat_id = some rec)
    (hemp : rec.payload ≠ emptyChatP)
    (hw : rec.payload.wallet = some w) :
    ∃ chat, get_chat st chat_id (some w) = some chat ∧
      chat.agent_id = rec.payload.agent_id := by
  simp only [get_chat, hrec, if_neg hemp]
  have hauth : (truthyS (some w) && !(rec.payload.wallet == some w)) = false := by
    simp [hw]
  rw [if_neg (by simp [hauth])]
  exact ⟨_, rfl, rfl⟩

theorem update_chat_counters_eq (st : St) (chat_id : Nat) (w : String)
    (rec : Pt ChatPayload) (count : ℤ) (last : String)
    (hrec : getById st.chats chat_id = some rec)
    (hemp : rec.payload ≠ emptyChatP)
    (hw : rec.payload.wallet = some w) :
    update_chat_counters st chat_id (some w) count last = { st with chats := upsertPt st.chats chat_id ({ rec.payload with message_count := some count, last_message := some last, updated_at := some st.clock }) none, clock := st.clock + 1 } := by
  simp only [update_chat_counters, hrec, if_neg hemp]
  have hauth : (truthyS (some w) && !(rec.payload.wallet == some w)) = false := by
    simp [hw]
  rw [if_neg (by simp [hauth])]

theorem chatPayload_ne_empty_of_wallet (p : ChatPayload) (w : String)
    (hw : p.wallet = some w) : p ≠ emptyChatP := by
  intro h
  rw [h] at hw
  cases hw

/-- One `AgentService.add_message` call preserves the C4 invariant, succeeds,
and leaves the chat's stored `message_count` at `min 5000 (k+1)`. -/
theorem c4_step (embed : String → List ℚ) (msg : MessageCreate) (chat_id : Nat)
    (w : String) (k : Nat) (st : St) (hinv : c4Inv chat_id w k st) :
    ∃ res, agent_add_message embed st chat_id msg w = .ok res ∧
      c4Inv chat_id w (k + 1) res.1 := by
  obtain ⟨⟨rec, hrec, hw, haid, hemp, hcount⟩, hlen, hts, hids⟩ := hinv
  obtain ⟨aid, haid2⟩ := Option.isSome_iff_exists.mp haid
  obtain ⟨chat, hchat, hchataid⟩ := get_chat_owner st chat_id w rec hrec hemp hw
  have hfresh : ∀ r ∈ st.messages, r.pid ≠ st.nextId := by
    intro r hr
    exact Nat.ne_of_lt (hids r hr)
  have hupsert := upsertPt_append st.messages st.nextId
    (addMsgPayload chat_id aid w msg st.clock st.nextId)
    (some (embed msg.content)) hfresh
  have hmsgsA : (addMsgSt embed st chat_id aid w msg).messages =
      st.messages ++ [⟨st.nextId, addMsgPayload chat_id aid w msg st.clock st.nextId,
        some (embed msg.content)⟩] := by
    simp only [addMsgSt, hupsert]
  have hnewfilt : msgFilter chat_id (some w)
      (addMsgPayload chat_id aid w msg st.clock st.nextId) = true := by
    simp [msgFilter, addMsgPayload]
  have hfiltA : ((addMsgSt embed st chat_id aid w msg).messages.filter
        (fun r => msgFilter chat_id (some w) r.payload)) =
      st.messages.filter (fun r => msgFilter chat_id (some w) r.payload) ++
        [⟨st.nextId, addMsgPayload chat_id aid w msg st.clock st.nextId,
          some (embed msg.content)⟩] := by
    rw [hmsgsA, List.filter_append]
    simp [hnewfilt]
  have hlenA : ((addMsgSt embed st chat_id aid w msg).messages.filter
      (fun r => msgFilter chat_id (some w) r.payload)).length = k + 1 := by
    rw [hfiltA, List.length_append, hlen]
    rfl
  have hmsgs : (list_messages (addMsgSt embed st chat_id aid w msg) chat_id (some w)
      5000).length = min 5000 (k + 1) := by
    rw [list_messages_length, hlenA]
  have hrecA : getById (addMsgSt embed st chat_id aid w msg).chats chat_id = some rec := hrec
  have hupd := update_chat_counters_eq (addMsgSt embed st chat_id aid w msg) chat_id w rec
    ((list_messages (addMsgSt embed st chat_id aid w msg) chat_id (some w) 5000).length : ℤ)
    (msg.content.take 100) hrecA hemp hw
  have hadd : agent_add_message embed st chat_id msg w =
      .ok (update_chat_counters (addMsgSt embed st chat_id aid w msg) chat_id (some w)
        ((list_messages (addMsgSt embed st chat_id aid w msg) chat_id (some w) 5000).length : ℤ)
        (msg.content.take 100),
       ⟨st.nextId, msg.role, msg.content, some st.clock⟩) := by
    simp only [agent_add_message, hchat, hchataid, haid2]
    rfl
  refine ⟨_, hadd, ?_⟩
  rw [hupd]
  refine ⟨⟨⟨chat_id, { rec.payload with message_count := some ((list_messages (addMsgSt embed st chat_id aid w msg) chat_id (some w) 5000).length : ℤ), last_message := some (msg.content.take 100), updated_at := some (addMsgSt embed st chat_id aid w msg).clock }, none⟩, ?_, hw, ?_, ?_, ?_⟩, ?_, ?_, ?_⟩
  · exact getById_upsertPt _ _ _ _
  · simpa using haid
  · exact chatPayload_ne_empty_of_wallet _ w hw
  · rw [hmsgs]
  · exact hlenA
  · intro r hr
    rw [hfiltA] at hr
    rcases List.mem_append.mp hr with hr1 | hr2
    · exact hts r hr1
    · rcases List.mem_singleton.mp hr2 with rfl
      rfl
  · intro r hr
    rw [hmsgsA] at hr
    rcases List.mem_append.mp hr with hr1 | hr2
    · exact Nat.lt_succ_of_lt (hids r hr1)
    · rcases List.mem_singleton.mp hr2 with rfl
      exact Nat.lt_succ_self _

/-- The C4 invariant after `N` sequential `add_message` calls. -/
theorem c4_iter (embed : String → List ℚ) (msgs : Nat → MessageCreate)
    (chat_id : Nat) (w : String) (st0 : St) (h0 : c4Inv chat_id w 0 st0) :
    ∀ N, c4Inv chat_id w N (iterAddMessage embed msgs chat_id w N st0) := by
  intro N
  induction N with
  | zero => exact h0
  | succ n ih =>
    obtain ⟨res, hok, hinv⟩ := c4_step embed (msgs n) chat_id w n _ ih
    simp only [iterAddMessage, hok]
    exact hinv

/-! ## C4: N sequential addMessage calls -/

/-- A fresh chat record (id 1, agent 7, owner `"w"`), as written by
`create_chat`. -/
def exC4ChatP : ChatPayload :=
  { type := some "chat", created_at := some 0, updated_at := some 0, id := some 1,
    chat_id := some 1, agent_id := some 7, wallet := some "w", title := some "c",
    name := some "c", memory_size := some "Small", timestamp := some 0,
    message_count := some 0, last_message := none, capsule_id := none,
    user_wallet := some "w", web_search_enabled := some false }

/-- A store holding only that fresh chat. -/
def exC4St0 : St := { chats := [⟨1, exC4ChatP, none⟩], clock := 1, nextId := 2 }

theorem optNatLE_total (x y : Option Nat) : optNatLE x y = true ∨ optNatLE y x = true := by
  cases x <;> cases y <;> simp [optNatLE] <;> omega

theorem optNatLE_trans (x y z : Option Nat) :
    optNatLE x y = true → optNatLE y z = true → optNatLE x z = true := by
  cases x <;> cases y <;> cases z <;> simp [optNatLE] <;> omega

theorem toMessage_timestamp_key (r : Pt MessagePayload)
    (h : r.payload.created_at = r.payload.timestamp) :
    (toMessage r).timestamp = msgSortKey r := by
  simp only [toMessage, msgSortKey, h]

theorem exC4St0_inv : c4Inv 1 "w" 0 exC4St0 := by
  refine ⟨⟨⟨1, exC4ChatP, none⟩, rfl, rfl, rfl, by decide, by decide⟩, rfl, ?_, ?_⟩
  · intro r hr
    simp [exC4St0] at hr
  · intro r hr
    simp [exC4St0] at hr

/-- **C4 counterexample.** After 1001 sequential `add_message` calls on a fresh
chat, `list_messages` (default limit 1000) returns 1000 messages, not 1001:
the claim's "exactly N messages for every N" fails beyond the listing limit. -/
theorem c4_counterexample :
    (list_messages (iterAddMessage (fun _ => [(0 : ℚ)]) (fun _ => ⟨"user", "hi"⟩)
        1 "w" 1001 exC4St0) 1 (some "w")).length = 1000 := by
  have hinv := c4_iter (fun _ => [(0 : ℚ)]) (fun _ => ⟨"user", "hi"⟩) 1 "w" exC4St0
    exC4St0_inv 1001
  obtain ⟨_, hlen, _, _⟩ := hinv
  rw [list_messages_length, hlen]
  omega

/-- **C4 (amended).** For every chat (any store satisfying the fresh-chat
invariant) and every `N ≤ 1000`: after `N` sequential `add_message` calls,
`list_messages` (default limit) returns exactly `N` messages in non-decreasing
timestamp order, and the chat's stored `message_count` equals `N`.  (For
`N > 1000` the listing is capped at 1000, and beyond 5000 the stored counter is
capped at 5000 — see C10.) -/
theorem c4_messages_after_n (embed : String → List ℚ) (msgs : Nat → MessageCreate)
    (chat_id : Nat) (w : String) (st0 : St) (N : Nat)
    (h0 : c4Inv chat_id w 0 st0) (hN : N ≤ 1000) :
    (list_messages (iterAddMessage embed msgs chat_id w N st0) chat_id (some w)).length = N ∧
    (list_messages (iterAddMessage embed msgs chat_id w N st0) chat_id (some w)).Pairwise
      (fun m1 m2 => optNatLE m1.timestamp m2.timestamp = true) ∧
    (getById (iterAddMessage embed msgs chat_id w N st0).chats chat_id).map
      (fun r => r.payload.message_count) = some (some (N : ℤ)) := by
  obtain ⟨⟨rec, hrec, hw, haid, hemp, hcount⟩, hlen, hts, hids⟩ :=
    c4_iter embed msgs chat_id w st0 h0 N
  refine ⟨?_, ?_, ?_⟩
  · rw [list_messages_length, hlen]
    omega
  · simp only [list_messages]
    rw [List.pairwise_map]
    haveI : IsTotal (Pt MessagePayload)
        (fun a b => optNatLE (msgSortKey a) (msgSortKey b) = true) :=
      ⟨fun a b => optNatLE_total (msgSortKey a) (msgSortKey b)⟩
    haveI : IsTrans (Pt MessagePayload)
        (fun a b => optNatLE (msgSortKey a) (msgSortKey b) = true) :=
      ⟨fun a b c h1 h2 => optNatLE_trans (msgSortKey a) (msgSortKey b) (msgSortKey c) h1 h2⟩
    have hsorted := List.sorted_insertionSort
      (fun a b : Pt MessagePayload => optNatLE (msgSortKey a) (msgSortKey b) = true)
      (scrollLimited ((iterAddMessage embed msgs chat_id w N st0).messages.filter
        (fun r => msgFilter chat_id (some w) r.payload)) 1000)
    refine List.Pairwise.imp_of_mem ?_ hsorted
    intro a b ha hb hab
    have hmem : ∀ x, x ∈ List.insertionSort
        (fun a b => optNatLE (msgSortKey a) (msgSortKey b) = true)
        (scrollLimited ((iterAddMessage embed msgs chat_id w N st0).messages.filter
          (fun r => msgFilter chat_id (some w) r.payload)) 1000) →
        x ∈ (iterAddMessage embed msgs chat_id w N st0).messages.filter
          (fun r => msgFilter chat_id (some w) r.payload) := by
      intro x hx
      have h1 := (List.mem_insertionSort _).mp hx
      rw [scrollLimited_eq] at h1
      exact (List.take_sublist 1000 _).subset h1
    rw [toMessage_timestamp_key a (hts a (hmem a ha)),
        toMessage_timestamp_key b (hts b (hmem b hb))]
    exact hab
  · rw [hrec]
    show some rec.payload.message_count = some (some (N : ℤ))
    rw [hcount]
    have hmin : min 5000 N = N := by omega
    rw [hmin]

/-- Witness for C4's amended theorem at a concrete fresh chat with N = 2. -/
theorem c4_messages_after_n_witness :
    (list_messages (iterAddMessage (fun _ => [(0 : ℚ)]) (fun _ => ⟨"user", "hi"⟩)
        1 "w" 2 exC4St0) 1 (some "w")).length = 2 ∧
    (getById (iterAddMessage (fun _ => [(0 : ℚ)]) (fun _ => ⟨"user", "hi"⟩)
        1 "w" 2 exC4St0).chats 1).map (fun r => r.payload.message_count) =
      some (some (2 : ℤ)) :=
  ⟨(c4_messages_after_n (fun _ => [(0 : ℚ)]) (fun _ => ⟨"user", "hi"⟩) 1 "w" exC4St0 2
      exC4St0_inv (by decide)).1,
   (c4_messages_after_n (fun _ => [(0 : ℚ)]) (fun _ => ⟨"user", "hi"⟩) 1 "w" exC4St0 2
      exC4St0_inv (by decide)).2.2⟩

/-! ## C5: chat deletion cascade -/

theorem list_messages_nil (st : St) (chat_id : Nat) (wallet : Option String)
    (limit : Nat)
    (h : st.messages.filter (fun r => msgFilter chat_id wallet r.payload) = []) :
    list_messages st chat_id wallet limit = [] := by
  simp only [list_messages, scrollLimited_eq, h]
  simp

/-- **C5.** For an existing chat owned by the caller (in a store where, as the
services guarantee, every message of the chat carries the chat's wallet),
`delete_chat` performs the memory-pointer cleanup first (best-effort: its
failure changes nothing else), then deletes the chat's messages, then the chat
record itself — in that order; afterwards `list_messages` for the chat id is
empty (for any caller) and `get_chat` returns none. -/
theorem c5_delete_chat_cascade (st : St) (memFails : Bool) (chat_id : Nat)
    (w : String) (chat : Chat)
    (hchat : get_chat st chat_id (some w) = some chat)
    (hmsg : ∀ r ∈ st.messages, r.payload.chat_id = some chat_id →
      r.payload.wallet = some w) :
    (delete_chat st memFails chat_id (some w)).2 =
      [.memCleanup, .deleteMsgs, .deleteChatRec] ∧
    list_messages (delete_chat st memFails chat_id (some w)).1 chat_id none = [] ∧
    get_chat (delete_chat st memFails chat_id (some w)).1 chat_id (some w) = none ∧
    (memFails = false → (delete_chat st memFails chat_id (some w)).1.memPointers =
      deleteByFilter st.memPointers (memPtrFilter chat.agent_id chat_id)) := by
  have hmsgs3 : (delete_chat st memFails chat_id (some w)).1.messages =
      deleteByFilter st.messages (msgFilter chat_id (some w)) := by
    simp only [delete_chat, hchat]
    cases memFails <;> rfl
  have hchats3 : (delete_chat st memFails chat_id (some w)).1.chats =
      deleteById st.chats chat_id := by
    simp only [delete_chat, hchat]
    cases memFails <;> rfl
  refine ⟨?_, ?_, ?_, ?_⟩
  · simp only [delete_chat, hchat]
  · apply list_messages_nil
    rw [hmsgs3]
    rw [List.filter_eq_nil_iff]
    intro r hr hp
    unfold deleteByFilter at hr
    have hr2 := List.mem_filter.mp hr
    have hneg := hr2.2
    have hcid : r.payload.chat_id = some chat_id := by
      simp [msgFilter, truthyS] at hp
      exact hp
    have hwal := hmsg r hr2.1 hcid
    have hpos : msgFilter chat_id (some w) r.payload = true := by
      simp [msgFilter, hcid, hwal]
    rw [hpos] at hneg
    cases hneg
  · have hnone : getById (delete_chat st memFails chat_id (some w)).1.chats chat_id = none := by
      rw [hchats3]
      exact getById_deleteById st.chats chat_id
    simp only [get_chat, hnone]
  · intro h
    subst h
    simp only [delete_chat, hchat]
    rfl

/-- A chat payload (id 1, agent 7, owner `"w"`) and one message in that chat,
for the C5 witness. -/
def exC5MsgP : MessagePayload :=
  { type := some "message", created_at := some 0, updated_at := some 0,
    id := some 5, message_id := some 5, chat_id := some 1, agent_id := some 7,
    wallet := some "w", role := some "user", content := some "hi",
    timestamp := some 0 }

/-- A store with one chat, one message of that chat, and one memory pointer. -/
def exC5St : St :=
  { chats := [⟨1, exC4ChatP, none⟩],
    messages := [⟨5, exC5MsgP, some [0]⟩],
    memPointers := [⟨9, { agent_id := some 7, chat_id := some 1 }, none⟩],
    clock := 1, nextId := 10 }

/-- Witness for C5 at a concrete store. -/
theorem c5_delete_chat_cascade_witness :
    (delete_chat exC5St false 1 (some "w")).2 =
      [.memCleanup, .deleteMsgs, .deleteChatRec] ∧
    list_messages (delete_chat exC5St false 1 (some "w")).1 1 none = [] ∧
    get_chat (delete_chat exC5St false 1 (some "w")).1 1 (some "w") = none := by
  have h := c5_delete_chat_cascade exC5St false 1 "w"
    ⟨1, "c", "Small", none, 0, 1, [⟨5, "user", "hi", some 0⟩], some 7, none, some "w", false⟩
    (by decide) (by decide)
  exact ⟨h.1, h.2.1, h.2.2.1⟩

/-! ## C10: the `list_messages` limit truncates -/

/-- **C10.** `list_messages` returns `min limit count` messages, where `count`
is the number of matching stored messages: the pagination loop stops once
`limit` records are collected, so when more than `limit` matching messages
exist the result is a strict truncation, never the full set. -/
theorem c10_list_messages_truncates (st : St) (chat_id : Nat)
    (wallet : Option String) (limit : Nat) :
    (list_messages st chat_id wallet limit).length =
      min limit (st.messages.filter (fun r => msgFilter chat_id wallet r.payload)).length := by
  simp only [list_messages, List.length_map, List.length_insertionSort, scrollLimited_eq,
    List.length_take]

end AnymindQD
